import Mathlib

/-!
Verification development for the trading bot's concurrent trading core.

Shallow embedding of the Python sources `src/risk_manager.py`, `src/trader.py`
and `src/ultra_simple_websocket.py`.  Python floats are modelled as rationals
(`ℚ`); Python dicts keyed by symbol are modelled as association lists with
dict semantics (assignment replaces in place, otherwise appends); calls to
`self.exchange.get_balance()` and to the wall clock (`time.time()`,
`pd.Timestamp.now()`) are modelled by passing the externally observed value as
an explicit argument.  Log statements and the purely diagnostic string fields
of the `details` dictionaries are elided; every field that any computation
reads is kept.
-/

/-- Association-list lookup with Python-dict semantics (first binding wins;
the operations below never create duplicate keys from a duplicate-free list). -/
def dictLookup {α : Type} (k : String) : List (String × α) → Option α
  | [] => none
  | (k2, v2) :: t => if k2 = k then some v2 else dictLookup k t

/-- Python-dict assignment `d[k] = v`: replaces the binding in place if the key
is present, otherwise appends the new binding at the end. -/
def dictInsert {α : Type} (k : String) (v : α) : List (String × α) → List (String × α)
  | [] => [(k, v)]
  | (k2, v2) :: t => if k2 = k then (k, v) :: t else (k2, v2) :: dictInsert k v t

/-- Python-dict `d.pop(k)`: removes the binding of `k` (the first one). -/
def dictErase {α : Type} (k : String) : List (String × α) → List (String × α)
  | [] => []
  | (k2, v2) :: t => if k2 = k then t else (k2, v2) :: dictErase k t

/-- Python `l[-n:]`: the last `n` elements of a list. -/
def lastN {α : Type} (n : Nat) (l : List α) : List α := l.drop (l.length - n)

/-- `PositionSizeType` enum from `risk_manager.py`. -/
inductive PositionSizeType
  | fixed_amount
  | percentage_balance
  | risk_based
  | kelly_criterion
deriving DecidableEq

/-- `RiskParameters` dataclass from `risk_manager.py` (all fields). -/
structure RiskParameters where
  max_risk_per_trade : ℚ
  max_portfolio_risk : ℚ
  max_concurrent_trades : Nat
  max_daily_loss : ℚ
  default_stop_loss_pct : ℚ
  default_take_profit_pct : ℚ
  trailing_stop_enabled : Bool
  trailing_stop_distance : ℚ
  trailing_stop_step : ℚ
  position_size_type : PositionSizeType
  fixed_position_size : ℚ
  balance_percentage : ℚ
deriving DecidableEq

/-- The dataclass defaults of `RiskParameters` (risk_manager.py lines 36-53). -/
def defaultRiskParameters : RiskParameters where
  max_risk_per_trade := 1/100
  max_portfolio_risk := 5/100
  max_concurrent_trades := 3
  max_daily_loss := 3/100
  default_stop_loss_pct := 2/100
  default_take_profit_pct := 4/100
  trailing_stop_enabled := true
  trailing_stop_distance := 15/1000
  trailing_stop_step := 5/1000
  position_size_type := PositionSizeType.risk_based
  fixed_position_size := 50
  balance_percentage := 5/100

/-- `TradeRisk` dataclass from `risk_manager.py`. -/
structure TradeRisk where
  symbol : String
  entry_price : ℚ
  stop_loss : ℚ
  take_profit : ℚ
  position_size : ℚ
  risk_amount : ℚ
  risk_percentage : ℚ
  reward_ratio : ℚ
  max_loss : ℚ
  expected_profit : ℚ
deriving DecidableEq

/-- One record of `RiskManager.trade_history` (the dict built in
`register_trade_exit`); `timestamp` is the `time.time()` value passed in. -/
structure TradeRecord where
  symbol : String
  entry_price : ℚ
  exit_price : ℚ
  position_size : ℚ
  profit : ℚ
  profit_pct : ℚ
  timestamp : ℚ
  duration_minutes : ℚ
deriving DecidableEq

/-- The mutable state of a `RiskManager` instance (`__init__`, lines 75-89).
`session_start_balance` is the balance read once at construction. -/
structure RiskManagerState where
  risk_params : RiskParameters
  active_positions : List (String × TradeRisk)
  daily_pnl : ℚ
  daily_trades : Nat
  session_start_balance : ℚ
  trade_history : List TradeRecord
  win_rate : ℚ
  avg_win : ℚ
  avg_loss : ℚ
deriving DecidableEq

/-- `RiskManager.__init__`: fresh state with the given parameters and the
balance returned by the exchange at construction time. -/
def initRiskManager (rp : RiskParameters) (balance : ℚ) : RiskManagerState where
  risk_params := rp
  active_positions := []
  daily_pnl := 0
  daily_trades := 0
  session_start_balance := balance
  trade_history := []
  win_rate := 0
  avg_win := 0
  avg_loss := 0

/-- Which hard ceiling clamped the position size; the value written to
`details["limited_by"]` in `calculate_position_size`. -/
inductive LimitedBy
  | max_position_value_10_percent
  | max_risk_5_percent
deriving DecidableEq

/-- The numeric fields of the `details` dict returned by
`calculate_position_size` (the log-only string fields are elided;
`max_risk_amount` is only set on the RISK_BASED branch). -/
structure SizingDetails where
  method : PositionSizeType
  current_balance : ℚ
  risk_per_share : ℚ
  confidence : ℚ
  max_risk_amount : Option ℚ
  limited_by : Option LimitedBy
  final_position_size : ℚ
  position_value : ℚ
  actual_risk : ℚ
  risk_percentage : ℚ
deriving DecidableEq

/-- `RiskManager._calculate_kelly_position` (risk_manager.py lines 164-192). -/
def calculate_kelly_position (rp : RiskParameters) (trade_history : List TradeRecord)
    (balance entry_price stop_loss confidence : ℚ) : ℚ :=
  if trade_history = [] then
    balance * rp.max_risk_per_trade / |entry_price - stop_loss|
  else
    let recent := lastN 50 trade_history
    let wins := recent.filter (fun t => t.profit > 0)
    let losses := recent.filter (fun t => t.profit ≤ 0)
    if wins = [] ∨ losses = [] then
      balance * (1/100) / entry_price
    else
      let prob_win : ℚ := (wins.length : ℚ) / (recent.length : ℚ)
      let avg_win_pct : ℚ := (wins.map (fun t => t.profit_pct)).sum / (wins.length : ℚ)
      let avg_loss_pct : ℚ := |(losses.map (fun t => t.profit_pct)).sum / (losses.length : ℚ)|
      let b : ℚ := if avg_loss_pct > 0 then avg_win_pct / avg_loss_pct else 1
      let kelly_fraction := (b * prob_win - (1 - prob_win)) / b
      let kf := max 0 (min (25/100) (kelly_fraction * confidence))
      balance * kf / entry_price

/-- The clamping section of `calculate_position_size` (risk_manager.py lines
143-155), factored out verbatim: first the 10%-of-balance position-value cap,
then the 5%-of-balance risk cap, each recording itself in `limited_by`. -/
def apply_position_caps (current_balance entry_price risk_per_share ps : ℚ) :
    ℚ × Option LimitedBy :=
  let max_position_size := current_balance * (10/100) / entry_price
  let s1 :=
    if ps > max_position_size then
      (max_position_size, some LimitedBy.max_position_value_10_percent)
    else (ps, (none : Option LimitedBy))
  if s1.1 * risk_per_share > current_balance * (5/100) then
    (current_balance * (5/100) / risk_per_share, some LimitedBy.max_risk_5_percent)
  else s1

/-- `RiskManager.calculate_position_size` (risk_manager.py lines 93-162).
`current_balance` is the value returned by `self.exchange.get_balance()`. -/
def calculate_position_size (rp : RiskParameters) (trade_history : List TradeRecord)
    (current_balance entry_price stop_loss confidence : ℚ) : ℚ × SizingDetails :=
  let risk_per_share := |entry_price - stop_loss|
  let base : ℚ :=
    match rp.position_size_type with
    | PositionSizeType.fixed_amount => rp.fixed_position_size / entry_price
    | PositionSizeType.percentage_balance =>
        current_balance * rp.balance_percentage / entry_price
    | PositionSizeType.risk_based =>
        current_balance * rp.max_risk_per_trade / risk_per_share
    | PositionSizeType.kelly_criterion =>
        calculate_kelly_position rp trade_history current_balance entry_price
          stop_loss confidence
  let max_risk_amount : Option ℚ :=
    match rp.position_size_type with
    | PositionSizeType.risk_based => some (current_balance * rp.max_risk_per_trade)
    | _ => none
  let capped := apply_position_caps current_balance entry_price risk_per_share
    (base * confidence)
  (capped.1,
    { method := rp.position_size_type
      current_balance := current_balance
      risk_per_share := risk_per_share
      confidence := confidence
      max_risk_amount := max_risk_amount
      limited_by := capped.2
      final_position_size := capped.1
      position_value := capped.1 * entry_price
      actual_risk := capped.1 * risk_per_share
      risk_percentage := capped.1 * risk_per_share / current_balance })

/-- Python truthiness of the optional `custom_sl` / `custom_tp` arguments:
`if custom_sl:` treats both `None` and `0.0` as absent. -/
def truthyOpt (o : Option ℚ) : Option ℚ :=
  match o with
  | some c => if c = 0 then none else some c
  | none => none

/-- `RiskManager.calculate_stop_loss_take_profit` (risk_manager.py 194-233). -/
def calculate_stop_loss_take_profit (rp : RiskParameters) (entry_price : ℚ)
    (is_long : Bool) (custom_sl custom_tp : Option ℚ) : ℚ × ℚ :=
  let stop_loss :=
    match truthyOpt custom_sl with
    | some c => c
    | none =>
        let sl_distance := entry_price * rp.default_stop_loss_pct
        if is_long then entry_price - sl_distance else entry_price + sl_distance
  let take_profit :=
    match truthyOpt custom_tp with
    | some c => c
    | none =>
        let tp_distance := entry_price * rp.default_take_profit_pct
        if is_long then entry_price + tp_distance else entry_price - tp_distance
  (stop_loss, take_profit)

/-- Outcome of `RiskManager.validate_trade`: the five distinguishable
rejection reasons, in source order, or approval carrying the `TradeRisk`. -/
inductive ValidationResult
  | rejected_insufficient_balance
  | rejected_concurrent_limit
  | rejected_trade_risk
  | rejected_portfolio_risk
  | rejected_daily_loss
  | approved (trade_risk : TradeRisk)
deriving DecidableEq

/-- `RiskManager.validate_trade` (risk_manager.py lines 235-308).
`current_balance` is the value returned by `self.exchange.get_balance()`.
Note line 293: the function overwrites its `stop_loss` argument with the
default long stop before building the `TradeRisk`. -/
def validate_trade (st : RiskManagerState) (current_balance : ℚ) (symbol : String)
    (entry_price position_size stop_loss : ℚ) : ValidationResult :=
  let position_value := position_size * entry_price
  if position_value > current_balance * (95/100) then
    ValidationResult.rejected_insufficient_balance
  else if st.active_positions.length ≥ st.risk_params.max_concurrent_trades then
    ValidationResult.rejected_concurrent_limit
  else
    let risk_amount := |entry_price - stop_loss| * position_size
    let risk_percentage := risk_amount / current_balance
    if risk_percentage > st.risk_params.max_risk_per_trade then
      ValidationResult.rejected_trade_risk
    else
      let total_portfolio_risk :=
        (st.active_positions.map (fun p => p.2.risk_amount)).sum
      let new_total_risk := (total_portfolio_risk + risk_amount) / current_balance
      if new_total_risk > st.risk_params.max_portfolio_risk then
        ValidationResult.rejected_portfolio_risk
      else
        let daily_loss_pct :=
          if st.daily_pnl < 0 then |st.daily_pnl| / st.session_start_balance else 0
        if daily_loss_pct ≥ st.risk_params.max_daily_loss then
          ValidationResult.rejected_daily_loss
        else
          let sltp := calculate_stop_loss_take_profit st.risk_params entry_price
            true none none
          ValidationResult.approved
            { symbol := symbol
              entry_price := entry_price
              stop_loss := sltp.1
              take_profit := sltp.2
              position_size := position_size
              risk_amount := risk_amount
              risk_percentage := risk_percentage
              reward_ratio := |sltp.2 - entry_price| / |entry_price - sltp.1|
              max_loss := risk_amount
              expected_profit := |sltp.2 - entry_price| * position_size }

/-- `RiskManager.register_trade_entry` (risk_manager.py lines 310-322):
unconditionally stores the position and bumps the daily trade counter. -/
def register_trade_entry (st : RiskManagerState) (trade_risk : TradeRisk) :
    RiskManagerState :=
  { st with
    active_positions := dictInsert trade_risk.symbol trade_risk st.active_positions
    daily_trades := st.daily_trades + 1 }

/-- `RiskManager._update_performance_metrics` (risk_manager.py 361-373). -/
def update_performance_metrics (st : RiskManagerState) : RiskManagerState :=
  if st.trade_history = [] then st
  else
    let recent_trades := lastN 100 st.trade_history
    let wins := recent_trades.filter (fun t => t.profit > 0)
    let losses := recent_trades.filter (fun t => t.profit ≤ 0)
    { st with
      win_rate :=
        if recent_trades ≠ [] then (wins.length : ℚ) / (recent_trades.length : ℚ) else 0
      avg_win := if wins ≠ [] then (wins.map (fun t => t.profit)).sum / (wins.length : ℚ) else 0
      avg_loss :=
        if losses ≠ [] then (losses.map (fun t => t.profit)).sum / (losses.length : ℚ) else 0 }

/-- `RiskManager.register_trade_exit` (risk_manager.py lines 324-359); `now`
is the `time.time()` value stamped on the new record. -/
def register_trade_exit (st : RiskManagerState) (symbol : String)
    (exit_price profit now : ℚ) : RiskManagerState :=
  match dictLookup symbol st.active_positions with
  | none => st
  | some trade_risk =>
      let profit_pct := profit / (trade_risk.position_size * trade_risk.entry_price)
      let record : TradeRecord :=
        { symbol := symbol
          entry_price := trade_risk.entry_price
          exit_price := exit_price
          position_size := trade_risk.position_size
          profit := profit
          profit_pct := profit_pct
          timestamp := now
          duration_minutes := 0 }
      update_performance_metrics
        { st with
          active_positions := dictErase symbol st.active_positions
          daily_pnl := st.daily_pnl + profit
          trade_history := st.trade_history ++ [record] }

/-- `RiskManager.update_trailing_stops` (risk_manager.py lines 375-400): for
each active position whose symbol has a current price, raise the stop to
`price - price * trailing_stop_distance` when that is strictly higher. -/
def update_trailing_stops (st : RiskManagerState)
    (current_prices : List (String × ℚ)) : RiskManagerState :=
  if st.risk_params.trailing_stop_enabled = false then st
  else
    { st with
      active_positions := st.active_positions.map (fun sp =>
        match dictLookup sp.1 current_prices with
        | none => sp
        | some current_price =>
            let trailing_distance :=
              current_price * st.risk_params.trailing_stop_distance
            let new_stop := current_price - trailing_distance
            if new_stop > sp.2.stop_loss then (sp.1, { sp.2 with stop_loss := new_stop })
            else sp) }

/-- Second component of the `(bool, reason)` pair returned by
`RiskManager.should_exit_position`, as a distinguishable datum. -/
inductive ExitCheck
  | not_found
  | stop_loss_hit
  | take_profit_hit
  | hold
deriving DecidableEq

/-- `RiskManager.should_exit_position` (risk_manager.py lines 402-420). -/
def should_exit_position (st : RiskManagerState) (symbol : String)
    (current_price : ℚ) : Bool × ExitCheck :=
  match dictLookup symbol st.active_positions with
  | none => (false, ExitCheck.not_found)
  | some position =>
      if current_price ≤ position.stop_loss then (true, ExitCheck.stop_loss_hit)
      else if current_price ≥ position.take_profit then (true, ExitCheck.take_profit_hit)
      else (false, ExitCheck.hold)

/-- The `{price, qty}` order object returned by the exchange; the trader only
reads `order["price"]`. A failed submission is modelled as `none`. -/
structure Order where
  price : ℚ
deriving DecidableEq

/-- Direction tag of an entry in `TradingPair.trades_history`. -/
inductive TradeSide
  | buy
  | sell
deriving DecidableEq

/-- One record of `TradingPair.trades_history` (the numeric fields read by the
rest of the program; timestamps and log-only fields are elided). -/
structure TradeInfo where
  side : TradeSide
  price : ℚ
  amount : ℚ
deriving DecidableEq

/-- The mutable state of a `TradingPair` controller (trader.py lines 22-52);
the market-data cache fields are not read by the order paths and are elided. -/
structure PairState where
  symbol : String
  in_position : Bool
  entry_price : ℚ
  amount : ℚ
  total_profit : ℚ
  trades_count : Nat
  current_trade_risk : Option TradeRisk
  trades_history : List TradeInfo
deriving DecidableEq

/-- Result of one controller action: the updated pair state, the updated risk
manager state, and how many order submissions were attempted. -/
structure CycleResult where
  pair : PairState
  risk : RiskManagerState
  order_attempts : Nat
deriving DecidableEq

/-- `TradingPair._execute_buy_with_risk_check` (trader.py lines 221-288), on
the risk-managed path.  `current_balance` is the exchange balance read inside
`calculate_position_size`/`validate_trade`; `order_result` is what
`create_market_buy_order` returned (`none` = failed submission). -/
def execute_buy_with_risk_check (pair : PairState) (rm : RiskManagerState)
    (current_balance current_price : ℚ) (order_result : Option Order) : CycleResult :=
  let suggested_stop_loss := current_price * (97/100)
  let sizing := calculate_position_size rm.risk_params rm.trade_history
    current_balance current_price suggested_stop_loss 1
  let position_size := sizing.1
  match validate_trade rm current_balance pair.symbol current_price position_size
      suggested_stop_loss with
  | ValidationResult.approved trade_risk =>
      match order_result with
      | none => { pair := pair, risk := rm, order_attempts := 1 }
      | some order =>
          { pair :=
              { pair with
                in_position := true
                entry_price := order.price
                amount := position_size
                trades_count := pair.trades_count + 1
                current_trade_risk := some trade_risk
                trades_history := pair.trades_history ++
                  [{ side := TradeSide.buy, price := order.price, amount := position_size }] }
            risk := register_trade_entry rm trade_risk
            order_attempts := 1 }
  | _ => { pair := pair, risk := rm, order_attempts := 0 }

/-- `TradingPair._execute_sell` (trader.py lines 325-363); `now` is the time
stamped on the risk manager's trade record. -/
def execute_sell (pair : PairState) (rm : RiskManagerState) (now : ℚ)
    (order_result : Option Order) : CycleResult :=
  match order_result with
  | none => { pair := pair, risk := rm, order_attempts := 1 }
  | some order =>
      let profit := (order.price - pair.entry_price) / pair.entry_price
      let profit_usdt := (order.price - pair.entry_price) * pair.amount
      { pair :=
          { pair with
            in_position := false
            current_trade_risk := none
            total_profit := pair.total_profit + profit
            trades_history := pair.trades_history ++
              [{ side := TradeSide.sell, price := order.price, amount := pair.amount }] }
        risk := register_trade_exit rm pair.symbol order.price profit_usdt now
        order_attempts := 1 }

/-- The trading-decision part of `TradingPair.execute_strategy` (trader.py
lines 169-175): at most one of the buy/sell paths runs per cycle, gated by
`in_position` and the strategy's signals. -/
def execute_strategy_cycle (pair : PairState) (rm : RiskManagerState)
    (current_balance current_price now : ℚ) (should_buy should_sell : Bool)
    (order_result : Option Order) : CycleResult :=
  if ¬pair.in_position ∧ should_buy then
    execute_buy_with_risk_check pair rm current_balance current_price order_result
  else if pair.in_position ∧ should_sell then
    execute_sell pair rm now order_result
  else { pair := pair, risk := rm, order_attempts := 0 }

/-- `max_retries` in `UltraSimpleWebSocket._ws_loop` (line 91). -/
def ws_max_retries : Nat := 3

/-- Delay before the next connection attempt: `await asyncio.sleep(10)`
(ultra_simple_websocket.py line 133) — a fixed 10 seconds for every attempt. -/
def ws_retry_delay_seconds (_attempt : Nat) : Nat := 10

/-- State of the `UltraSimpleWebSocket` loop: the `running` / `connected`
flags, the `retry_count` local of `_ws_loop`, whether the `while` loop has
exited (`halted`), and the `last_prices` cache. -/
structure WsState where
  running : Bool
  connected : Bool
  retry_count : Nat
  halted : Bool
  last_prices : List (String × ℚ)
deriving DecidableEq

/-- Fresh feed state after `start_monitoring`. -/
def initWsState : WsState where
  running := true
  connected := false
  retry_count := 0
  halted := false
  last_prices := []

/-- One iteration of the `while` loop in `_ws_loop`: either the connection
attempt fails, or it succeeds and the stream delivers some already-parsed
ticker messages `(formatted symbol, price)` before dropping. -/
inductive WsEvent
  | connect_fail
  | connect_ok (messages : List (String × ℚ))
deriving DecidableEq

/-- Number of callbacks registered for a symbol (`self.callbacks`). -/
def ws_callback_count (callbacks : List (String × Nat)) (symbol : String) : Nat :=
  match dictLookup symbol callbacks with
  | none => 0
  | some n => n

/-- `_process_ticker` for a list of messages: update `last_prices` and fire
the registered callbacks for each message, counting the invocations. -/
def ws_process_messages (callbacks : List (String × Nat)) :
    WsState → List (String × ℚ) → WsState × Nat
  | st, [] => (st, 0)
  | st, (sym, price) :: rest =>
      let st2 := { st with last_prices := dictInsert sym price st.last_prices }
      let tail := ws_process_messages callbacks st2 rest
      (tail.1, ws_callback_count callbacks sym + tail.2)

/-- One iteration of `_ws_loop` (ultra_simple_websocket.py lines 93-134) as a
step on `WsState`, returning the number of callback invocations it performs.
Once the loop has exited (`halted`, or `running` cleared) nothing further
happens: the loop is never re-entered and no callbacks fire.  A failed attempt
increments `retry_count` and, when it reaches `max_retries`, the loop exits
("🚨 WebSocket falhou após máximo de tentativas"); a successful attempt resets
`retry_count` to 0, streams its messages, and ends with the connection dropped
(the `except` handler clears `connected`). -/
def ws_step (callbacks : List (String × Nat)) (st : WsState) (ev : WsEvent) :
    WsState × Nat :=
  if ¬st.running ∨ st.halted then (st, 0)
  else
    let rc := st.retry_count + 1
    match ev with
    | WsEvent.connect_fail =>
        ({ st with retry_count := rc, connected := false, halted := rc ≥ ws_max_retries }, 0)
    | WsEvent.connect_ok messages =>
        let streamed := ws_process_messages callbacks
          { st with connected := true, retry_count := 0 } messages
        ({ streamed.1 with connected := false }, streamed.2)

/-- Run the loop over a sequence of iterations, accumulating the total number
of callback invocations. -/
def ws_run (callbacks : List (String × Nat)) (st : WsState) :
    List WsEvent → WsState × Nat
  | [] => (st, 0)
  | ev :: rest =>
      let one := ws_step callbacks st ev
      let tail := ws_run callbacks one.1 rest
      (tail.1, one.2 + tail.2)

/-- One call on the RiskManager mutation API, as performed by the trading
controllers: an entry op carries the inputs of the `validate_trade` call that
immediately precedes `register_trade_entry` in
`TradingPair._execute_buy_with_risk_check`. -/
inductive RMOp
  | entry (current_balance : ℚ) (symbol : String) (entry_price position_size stop_loss : ℚ)
  | exitPos (symbol : String) (exit_price profit now : ℚ)

/-- Apply one guarded operation: an entry is registered only when
`validate_trade` approves it on the current state (the controller's pattern,
trader.py lines 237-267); an exit is `register_trade_exit`. -/
def apply_guarded_op (s : RiskManagerState) : RMOp → RiskManagerState
  | RMOp.entry bal sym ep ps sl =>
      match validate_trade s bal sym ep ps sl with
      | ValidationResult.approved tr => register_trade_entry s tr
      | _ => s
  | RMOp.exitPos sym price profit now => register_trade_exit s sym price profit now

/-- Apply a sequence of guarded entry/exit operations. -/
def apply_guarded_ops (s : RiskManagerState) (ops : List RMOp) : RiskManagerState :=
  ops.foldl apply_guarded_op s

/-- A sequence of `update_trailing_stops` calls, one per price map. -/
def run_trailing_updates (st : RiskManagerState)
    (price_maps : List (List (String × ℚ))) : RiskManagerState :=
  price_maps.foldl update_trailing_stops st

/-- Sample symbols for concrete witnesses and counterexamples. -/
def symBTC : String := "BTC/USDT"

def symETH : String := "ETH/USDT"

def symSOL : String := "SOL/USDT"

def symADA : String := "ADA/USDT"

def symXRP : String := "XRP/USDT"

/-- A sample open long position: entry 100, stop 98, target 104. -/
def samplePosition : TradeRisk where
  symbol := symBTC
  entry_price := 100
  stop_loss := 98
  take_profit := 104
  position_size := 1
  risk_amount := 2
  risk_percentage := 2/10000
  reward_ratio := 2
  max_loss := 2
  expected_profit := 4

/-- A risk manager holding exactly the sample position. -/
def sampleStateWithPosition : RiskManagerState :=
  register_trade_entry (initRiskManager defaultRiskParameters 10000) samplePosition

/-- The sample position re-labelled on four distinct symbols. -/
def entryETH : TradeRisk := { samplePosition with symbol := symETH }

def entrySOL : TradeRisk := { samplePosition with symbol := symSOL }

def entryADA : TradeRisk := { samplePosition with symbol := symADA }

def entryXRP : TradeRisk := { samplePosition with symbol := symXRP }

/-- A fresh risk manager and a copy differing only in fields that
`validate_trade` never reads. -/
def c8stateA : RiskManagerState := initRiskManager defaultRiskParameters 10000

def c8stateB : RiskManagerState :=
  { initRiskManager defaultRiskParameters 10000 with
    win_rate := 1/2
    avg_win := 3
    daily_trades := 7 }

/-- A feed with one registered callback for the sample symbol. -/
def c5callbacks : List (String × Nat) := [(symBTC, 1)]

/-- Feed trace: one successful streaming connection delivering a tick, then
the stream drops and three consecutive reconnection attempts fail, then a
price tick arrives. -/
def c5trace : List WsEvent :=
  [WsEvent.connect_ok [(symBTC, 100)], WsEvent.connect_fail, WsEvent.connect_fail,
   WsEvent.connect_fail, WsEvent.connect_ok [(symBTC, 101)]]

/-- The buy path changes nothing when the order submission returns no order. -/
theorem execute_buy_none_fields (pair : PairState) (rm : RiskManagerState)
    (current_balance current_price : ℚ) :
    (execute_buy_with_risk_check pair rm current_balance current_price none).pair = pair ∧
    (execute_buy_with_risk_check pair rm current_balance current_price none).risk = rm := by
  simp only [execute_buy_with_risk_check]
  generalize validate_trade rm current_balance pair.symbol current_price
    (calculate_position_size rm.risk_params rm.trade_history current_balance current_price
      (current_price * (97 / 100)) 1).1 (current_price * (97 / 100)) = v
  cases v <;> simp

/-- The buy path submits at most one order per invocation. -/
theorem execute_buy_attempts_le (pair : PairState) (rm : RiskManagerState)
    (current_balance current_price : ℚ) (order_result : Option Order) :
    (execute_buy_with_risk_check pair rm current_balance current_price
      order_result).order_attempts ≤ 1 := by
  simp only [execute_buy_with_risk_check]
  generalize validate_trade rm current_balance pair.symbol current_price
    (calculate_position_size rm.risk_params rm.trade_history current_balance current_price
      (current_price * (97 / 100)) 1).1 (current_price * (97 / 100)) = v
  cases v <;> cases order_result <;> simp

/-- Claim C6: with balance 10000, entry 100, stop 98, risk-based sizing and
max_risk_per_trade of 1%, the raw risk-based size is (10000 x 0.01)/2 = 50
units, the 10%-of-balance position-value ceiling caps it at 1000/100 = 10
units, this cap is recorded in limited_by, and the returned size is 10. -/
theorem C6_sizing_scenario :
    (calculate_position_size defaultRiskParameters [] 10000 100 98 1).1 = 10 ∧
    (calculate_position_size defaultRiskParameters [] 10000 100 98 1).2.limited_by =
      some LimitedBy.max_position_value_10_percent ∧
    (calculate_position_size defaultRiskParameters [] 10000 100 98 1).2.max_risk_amount =
      some 100 ∧
    10000 * defaultRiskParameters.max_risk_per_trade / |(100 : ℚ) - 98| = 50 := by
  norm_num [calculate_position_size, apply_position_caps, defaultRiskParameters]

/-- Claim C7: for every symbol with an open position, should_exit_position
returns true exactly when the current price is at or below the position's
stop-loss or at or above its take-profit; both boundaries are inclusive. -/
theorem C7_should_exit_characterization (st : RiskManagerState) (symbol : String)
    (current_price : ℚ) (position : TradeRisk)
    (h : dictLookup symbol st.active_positions = some position) :
    (should_exit_position st symbol current_price).1 = true ↔
      (current_price ≤ position.stop_loss ∨ current_price ≥ position.take_profit) := by
  simp only [should_exit_position, h]
  split_ifs with h1 h2 <;> simp_all

/-- Witness for C7: at the exact stop-loss boundary (price = stop = 98) the
exit test fires. -/
theorem C7_witness :
    (should_exit_position sampleStateWithPosition symBTC 98).1 = true :=
  (C7_should_exit_characterization sampleStateWithPosition symBTC 98 samplePosition
    rfl).mpr (Or.inl (by norm_num [samplePosition]))

/-- Claim C8: validate_trade is deterministic in the engine state and the
proposed trade: two states agreeing on active_positions, daily P&L, session
start balance and risk parameters (as any two snapshots of the same manager
with no intervening mutation do) yield the same decision for the same
proposed trade and balance. -/
theorem C8_validate_trade_deterministic (s1 s2 : RiskManagerState)
    (current_balance : ℚ) (symbol : String) (entry_price position_size stop_loss : ℚ)
    (hap : s1.active_positions = s2.active_positions)
    (hpnl : s1.daily_pnl = s2.daily_pnl)
    (hssb : s1.session_start_balance = s2.session_start_balance)
    (hrp : s1.risk_params = s2.risk_params) :
    validate_trade s1 current_balance symbol entry_price position_size stop_loss =
      validate_trade s2 current_balance symbol entry_price position_size stop_loss := by
  unfold validate_trade
  rw [hap, hpnl, hssb, hrp]

/-- Witness for C8: two states differing only in performance metrics and the
daily trade counter produce identical decisions. -/
theorem C8_witness :
    validate_trade c8stateA 10000 symBTC 100 1 98 =
      validate_trade c8stateB 10000 symBTC 100 1 98 :=
  C8_validate_trade_deterministic c8stateA c8stateB 10000 symBTC 100 1 98
    rfl rfl rfl rfl

/-- Claim C9: if the exchange returns no order, the controller's state is
unchanged — a failed buy leaves in_position false with no entry registered in
the risk manager, a failed sell leaves in_position true with the position
still registered — and at most one order submission is attempted per cycle. -/
theorem C9_failed_order_preserves_state (pair : PairState) (rm : RiskManagerState)
    (current_balance current_price now : ℚ) (should_buy should_sell : Bool) :
    (execute_strategy_cycle pair rm current_balance current_price now should_buy
      should_sell none).pair = pair ∧
    (execute_strategy_cycle pair rm current_balance current_price now should_buy
      should_sell none).risk = rm ∧
    ∀ order_result : Option Order,
      (execute_strategy_cycle pair rm current_balance current_price now should_buy
        should_sell order_result).order_attempts ≤ 1 := by
  unfold execute_strategy_cycle
  split_ifs with h1 h2
  · exact ⟨(execute_buy_none_fields pair rm current_balance current_price).1,
      (execute_buy_none_fields pair rm current_balance current_price).2,
      fun o => execute_buy_attempts_le pair rm current_balance current_price o⟩
  · refine ⟨rfl, by simp [execute_sell, register_trade_exit], fun o => ?_⟩
    cases o <;> simp [execute_sell]
  · exact ⟨rfl, rfl, fun o => by simp⟩

/-- Claim C10: register_trade_exit for a symbol with no open position is a
complete no-op: active_positions, daily_pnl, trade_history and the
performance metrics are all unchanged, for every exit price and profit. -/
theorem C10_register_exit_unknown_symbol_noop (st : RiskManagerState)
    (symbol : String) (exit_price profit now : ℚ)
    (h : dictLookup symbol st.active_positions = none) :
    register_trade_exit st symbol exit_price profit now = st := by
  unfold register_trade_exit
  rw [h]

/-- Witness for C10 at a fresh manager with no open positions. -/
theorem C10_witness :
    register_trade_exit (initRiskManager defaultRiskParameters 10000) symBTC 101 5 0 =
      initRiskManager defaultRiskParameters 10000 :=
  C10_register_exit_unknown_symbol_noop (initRiskManager defaultRiskParameters 10000)
    symBTC 101 5 0 rfl

/-- Claim C3: validate_trade evaluates its checks in a fixed order,
short-circuiting with a rejection at the first failing one: (1) position
value at most 95% of balance, (2) open-position count strictly below
max_concurrent_trades, (3) per-trade risk fraction at most
max_risk_per_trade, (4) existing plus new portfolio risk fraction at most
max_portfolio_risk, (5) daily loss fraction strictly below max_daily_loss;
it returns approval with a TradeRisk exactly when all five hold. -/
theorem C3_validate_trade_check_order (st : RiskManagerState) (bal : ℚ)
    (symbol : String) (ep ps sl : ℚ) :
    (validate_trade st bal symbol ep ps sl = ValidationResult.rejected_insufficient_balance ↔
      ¬(ps * ep ≤ bal * (95/100))) ∧
    (validate_trade st bal symbol ep ps sl = ValidationResult.rejected_concurrent_limit ↔
      ps * ep ≤ bal * (95/100) ∧
      ¬(st.active_positions.length < st.risk_params.max_concurrent_trades)) ∧
    (validate_trade st bal symbol ep ps sl = ValidationResult.rejected_trade_risk ↔
      ps * ep ≤ bal * (95/100) ∧
      st.active_positions.length < st.risk_params.max_concurrent_trades ∧
      ¬(|ep - sl| * ps / bal ≤ st.risk_params.max_risk_per_trade)) ∧
    (validate_trade st bal symbol ep ps sl = ValidationResult.rejected_portfolio_risk ↔
      ps * ep ≤ bal * (95/100) ∧
      st.active_positions.length < st.risk_params.max_concurrent_trades ∧
      |ep - sl| * ps / bal ≤ st.risk_params.max_risk_per_trade ∧
      ¬(((st.active_positions.map (fun p => p.2.risk_amount)).sum + |ep - sl| * ps) / bal ≤
          st.risk_params.max_portfolio_risk)) ∧
    (validate_trade st bal symbol ep ps sl = ValidationResult.rejected_daily_loss ↔
      ps * ep ≤ bal * (95/100) ∧
      st.active_positions.length < st.risk_params.max_concurrent_trades ∧
      |ep - sl| * ps / bal ≤ st.risk_params.max_risk_per_trade ∧
      ((st.active_positions.map (fun p => p.2.risk_amount)).sum + |ep - sl| * ps) / bal ≤
        st.risk_params.max_portfolio_risk ∧
      ¬((if st.daily_pnl < 0 then |st.daily_pnl| / st.session_start_balance else 0) <
          st.risk_params.max_daily_loss)) ∧
    ((∃ tr, validate_trade st bal symbol ep ps sl = ValidationResult.approved tr) ↔
      ps * ep ≤ bal * (95/100) ∧
      st.active_positions.length < st.risk_params.max_concurrent_trades ∧
      |ep - sl| * ps / bal ≤ st.risk_params.max_risk_per_trade ∧
      ((st.active_positions.map (fun p => p.2.risk_amount)).sum + |ep - sl| * ps) / bal ≤
        st.risk_params.max_portfolio_risk ∧
      (if st.daily_pnl < 0 then |st.daily_pnl| / st.session_start_balance else 0) <
        st.risk_params.max_daily_loss) := by
  simp only [validate_trade]
  split_ifs with h1 h2 h3 h4 h5 <;>
    simp_all [not_le, not_lt, le_of_lt]

/-- Whatever the pre-cap size, after the caps the position value is at most
10% of the balance. -/
theorem apply_position_caps_value_le (cb ep rps ps : ℚ) (he : 0 < ep)
    (hr : 0 < rps) : (apply_position_caps cb ep rps ps).1 * ep ≤ cb * (10/100) := by
  have hmps : cb * (10/100) / ep * ep = cb * (10/100) := div_mul_cancel₀ _ (ne_of_gt he)
  simp only [apply_position_caps]
  split_ifs with h1 h2 h3
  · have hlt : cb * (5/100) / rps ≤ cb * (10/100) / ep :=
      le_of_lt ((div_lt_iff₀ hr).mpr h2)
    calc cb * (5/100) / rps * ep ≤ cb * (10/100) / ep * ep :=
          mul_le_mul_of_nonneg_right hlt (le_of_lt he)
      _ = cb * (10/100) := hmps
  · exact le_of_eq hmps
  · have hlt : cb * (5/100) / rps ≤ ps := le_of_lt ((div_lt_iff₀ hr).mpr h3)
    have hle : cb * (5/100) / rps ≤ cb * (10/100) / ep := le_trans hlt (not_lt.mp h1)
    calc cb * (5/100) / rps * ep ≤ cb * (10/100) / ep * ep :=
          mul_le_mul_of_nonneg_right hle (le_of_lt he)
      _ = cb * (10/100) := hmps
  · calc ps * ep ≤ cb * (10/100) / ep * ep :=
          mul_le_mul_of_nonneg_right (not_lt.mp h1) (le_of_lt he)
      _ = cb * (10/100) := hmps

/-- Whatever the pre-cap size, after the caps the risked amount is at most
5% of the balance. -/
theorem apply_position_caps_risk_le (cb ep rps ps : ℚ) (hr : 0 < rps) :
    (apply_position_caps cb ep rps ps).1 * rps ≤ cb * (5/100) := by
  simp only [apply_position_caps]
  split_ifs with h1 h2 h3
  · exact le_of_eq (div_mul_cancel₀ _ (ne_of_gt hr))
  · exact not_lt.mp h2
  · exact le_of_eq (div_mul_cancel₀ _ (ne_of_gt hr))
  · exact not_lt.mp h3

/-- When a cap is recorded in limited_by, that cap is attained exactly. -/
theorem apply_position_caps_limited_by (cb ep rps ps : ℚ) (he : ep ≠ 0) (hr : rps ≠ 0) :
    ((apply_position_caps cb ep rps ps).2 = some LimitedBy.max_position_value_10_percent →
      (apply_position_caps cb ep rps ps).1 * ep = cb * (10/100)) ∧
    ((apply_position_caps cb ep rps ps).2 = some LimitedBy.max_risk_5_percent →
      (apply_position_caps cb ep rps ps).1 * rps = cb * (5/100)) := by
  simp only [apply_position_caps]
  split_ifs with h1 h2 h3 <;> simp_all [div_mul_cancel₀]

/-- Claim C2: for positive balance, positive entry price and entry distinct
from stop, calculate_position_size returns a size with position value at most
10% of balance and risked amount at most 5% of balance, for every configured
sizing method and any confidence; when details.limited_by records a ceiling,
that ceiling binds with equality. -/
theorem C2_position_size_ceilings (rp : RiskParameters) (history : List TradeRecord)
    (balance entry stop confidence size : ℚ) (details : SizingDetails)
    (_hb : 0 < balance) (he : 0 < entry) (hne : entry ≠ stop)
    (h : calculate_position_size rp history balance entry stop confidence =
      (size, details)) :
    size * entry ≤ balance * (10/100) ∧
    size * |entry - stop| ≤ balance * (5/100) ∧
    (details.limited_by = some LimitedBy.max_position_value_10_percent →
      size * entry = balance * (10/100)) ∧
    (details.limited_by = some LimitedBy.max_risk_5_percent →
      size * |entry - stop| = balance * (5/100)) := by
  have hr : 0 < |entry - stop| := abs_pos.mpr (sub_ne_zero.mpr hne)
  simp only [calculate_position_size] at h
  injection h with hsize hdetails
  subst hsize
  have hlb : details.limited_by = _ := congrArg SizingDetails.limited_by hdetails.symm
  refine ⟨apply_position_caps_value_le _ _ _ _ he hr,
    apply_position_caps_risk_le _ _ _ _ hr, ?_, ?_⟩
  · intro hten
    rw [hlb] at hten
    exact (apply_position_caps_limited_by balance entry |entry - stop| _
      (ne_of_gt he) (ne_of_gt hr)).1 hten
  · intro hfive
    rw [hlb] at hfive
    exact (apply_position_caps_limited_by balance entry |entry - stop| _
      (ne_of_gt he) (ne_of_gt hr)).2 hfive

/-- Witness for C2 at the concrete scenario of the spec (balance 10000, entry
100, stop 98, default parameters). -/
theorem C2_witness :
    (calculate_position_size defaultRiskParameters [] 10000 100 98 1).1 * 100 ≤
      10000 * (10/100) ∧
    (calculate_position_size defaultRiskParameters [] 10000 100 98 1).1 * |(100 : ℚ) - 98| ≤
      10000 * (5/100) := by
  have h := C2_position_size_ceilings defaultRiskParameters [] 10000 100 98 1
    (calculate_position_size defaultRiskParameters [] 10000 100 98 1).1
    (calculate_position_size defaultRiskParameters [] 10000 100 98 1).2
    (by norm_num) (by norm_num) (by norm_num) rfl
  exact ⟨h.1, h.2.1⟩

/-- Every key of an insert result is either an old key or the inserted key. -/
theorem mem_keys_dictInsert {α : Type} (x k : String) (v : α) (l : List (String × α))
    (h : x ∈ (dictInsert k v l).map Prod.fst) : x ∈ l.map Prod.fst ∨ x = k := by
  induction l with
  | nil => simp only [dictInsert, List.map_cons, List.map_nil] at h; simp_all
  | cons hd t ih =>
      obtain ⟨k2, v2⟩ := hd
      simp only [dictInsert] at h
      split_ifs at h with hk
      · simp only [List.map_cons, List.mem_cons] at h
        rcases h with h | h
        · exact Or.inr h
        · exact Or.inl (by simp [hk, List.mem_cons.mpr (Or.inr h)])
      · simp only [List.map_cons, List.mem_cons] at h
        rcases h with h | h
        · exact Or.inl (by simp [h])
        · rcases ih h with h2 | h2
          · exact Or.inl (by simp [List.mem_cons.mpr (Or.inr h2)])
          · exact Or.inr h2

/-- Inserting preserves duplicate-freedom of the key list. -/
theorem dictInsert_keys_nodup {α : Type} (k : String) (v : α) (l : List (String × α))
    (h : (l.map Prod.fst).Nodup) : ((dictInsert k v l).map Prod.fst).Nodup := by
  induction l with
  | nil => simp [dictInsert]
  | cons hd t ih =>
      obtain ⟨k2, v2⟩ := hd
      simp only [List.map_cons, List.nodup_cons] at h
      simp only [dictInsert]
      split_ifs with hk
      · subst hk
        simp only [List.map_cons, List.nodup_cons]
        exact h
      · simp only [List.map_cons, List.nodup_cons]
        refine ⟨fun hmem => ?_, ih h.2⟩
        rcases mem_keys_dictInsert k2 k v t hmem with h2 | h2
        · exact h.1 h2
        · exact hk h2

/-- Inserting grows the dictionary by at most one binding. -/
theorem dictInsert_length_le {α : Type} (k : String) (v : α) (l : List (String × α)) :
    (dictInsert k v l).length ≤ l.length + 1 := by
  induction l with
  | nil => simp [dictInsert]
  | cons hd t ih =>
      obtain ⟨k2, v2⟩ := hd
      simp only [dictInsert]
      split_ifs with hk
      · simp
      · simpa using Nat.succ_le_succ ih

/-- Erasing yields a sublist of the original key list. -/
theorem dictErase_keys_sublist {α : Type} (k : String) (l : List (String × α)) :
    ((dictErase k l).map Prod.fst).Sublist (l.map Prod.fst) := by
  induction l with
  | nil => simp [dictErase]
  | cons hd t ih =>
      obtain ⟨k2, v2⟩ := hd
      simp only [dictErase]
      split_ifs with hk
      · simp
      · simpa using List.Sublist.cons₂ k2 ih

/-- update_performance_metrics never touches the open-position set. -/
theorem update_performance_metrics_active (s : RiskManagerState) :
    (update_performance_metrics s).active_positions = s.active_positions := by
  unfold update_performance_metrics
  split_ifs <;> rfl

/-- update_performance_metrics never touches the risk parameters. -/
theorem update_performance_metrics_params (s : RiskManagerState) :
    (update_performance_metrics s).risk_params = s.risk_params := by
  unfold update_performance_metrics
  split_ifs <;> rfl

/-- register_trade_exit shrinks (or keeps) the open-position set via a
sublist of the original keys. -/
theorem register_trade_exit_keys_sublist (s : RiskManagerState) (symbol : String)
    (exit_price profit now : ℚ) :
    ((register_trade_exit s symbol exit_price profit now).active_positions.map
      Prod.fst).Sublist (s.active_positions.map Prod.fst) := by
  unfold register_trade_exit
  cases h : dictLookup symbol s.active_positions with
  | none => simp
  | some tr =>
      simp only [update_performance_metrics_active]
      exact dictErase_keys_sublist symbol s.active_positions

/-- A guarded operation never changes the risk parameters. -/
theorem apply_guarded_op_params (s : RiskManagerState) (op : RMOp) :
    (apply_guarded_op s op).risk_params = s.risk_params := by
  cases op with
  | entry bal sym ep ps sl =>
      simp only [apply_guarded_op]
      split <;> rfl
  | exitPos sym price profit now =>
      simp only [apply_guarded_op]
      unfold register_trade_exit
      cases h : dictLookup sym s.active_positions with
      | none => rfl
      | some tr => simp only [update_performance_metrics_params]

/-- An approved validate_trade certifies spare capacity in the open-position
set. -/
theorem validate_trade_approved_length_lt (st : RiskManagerState) (bal : ℚ)
    (sym : String) (ep ps sl : ℚ) (tr : TradeRisk)
    (h : validate_trade st bal sym ep ps sl = ValidationResult.approved tr) :
    st.active_positions.length < st.risk_params.max_concurrent_trades := by
  simp only [validate_trade] at h
  split_ifs at h with h1 h2 h3 h4 h5 <;> simp_all

/-- One guarded operation preserves the capacity invariant. -/
theorem apply_guarded_op_invariant (s : RiskManagerState) (op : RMOp)
    (hnd : (s.active_positions.map Prod.fst).Nodup)
    (hlen : s.active_positions.length ≤ s.risk_params.max_concurrent_trades) :
    ((apply_guarded_op s op).active_positions.map Prod.fst).Nodup ∧
    (apply_guarded_op s op).active_positions.length ≤
      s.risk_params.max_concurrent_trades := by
  cases op with
  | entry bal sym ep ps sl =>
      simp only [apply_guarded_op]
      cases h : validate_trade s bal sym ep ps sl with
      | approved tr =>
          have hlt := validate_trade_approved_length_lt s bal sym ep ps sl tr h
          simp only [register_trade_entry]
          constructor
          · exact dictInsert_keys_nodup _ _ _ hnd
          · exact le_trans (dictInsert_length_le _ _ _) hlt
      | rejected_insufficient_balance => exact ⟨hnd, hlen⟩
      | rejected_concurrent_limit => exact ⟨hnd, hlen⟩
      | rejected_trade_risk => exact ⟨hnd, hlen⟩
      | rejected_portfolio_risk => exact ⟨hnd, hlen⟩
      | rejected_daily_loss => exact ⟨hnd, hlen⟩
  | exitPos sym price profit now =>
      simp only [apply_guarded_op]
      have hsub := register_trade_exit_keys_sublist s sym price profit now
      constructor
      · exact hnd.sublist hsub
      · have := hsub.length_le
        simp only [List.length_map] at this
        exact le_trans this hlen

/-- Counterexample to claim C1 as stated: register_trade_entry performs no
capacity check, so four entry registrations on four distinct symbols leave
four open positions although max_concurrent_trades is 3 (the cap is enforced
only inside validate_trade). -/
theorem C1_counterexample :
    (register_trade_entry (register_trade_entry (register_trade_entry
        (register_trade_entry (initRiskManager defaultRiskParameters 10000)
          samplePosition) entryETH) entrySOL) entryADA).active_positions.length = 4 ∧
    (register_trade_entry (register_trade_entry (register_trade_entry
        (register_trade_entry (initRiskManager defaultRiskParameters 10000)
          samplePosition) entryETH) entrySOL) entryADA).active_positions.length >
      (register_trade_entry (register_trade_entry (register_trade_entry
        (register_trade_entry (initRiskManager defaultRiskParameters 10000)
          samplePosition) entryETH) entrySOL) entryADA).risk_params.max_concurrent_trades := by
  refine ⟨rfl, ?_⟩
  show 3 < 4
  decide

/-- Claim C1 (amended): each symbol has at most one open position at any time
(positions are keyed by symbol), and along any sequence of entry/exit calls in
which every register_trade_entry is gated by an approving validate_trade on
the current state — the controller's calling pattern — the open-position count
never exceeds max_concurrent_trades; register_trade_entry alone enforces no
cap. -/
theorem C1_amended_capacity_invariant (s : RiskManagerState) (ops : List RMOp)
    (hnd : (s.active_positions.map Prod.fst).Nodup)
    (hlen : s.active_positions.length ≤ s.risk_params.max_concurrent_trades) :
    ((apply_guarded_ops s ops).active_positions.map Prod.fst).Nodup ∧
    (apply_guarded_ops s ops).active_positions.length ≤
      (apply_guarded_ops s ops).risk_params.max_concurrent_trades := by
  induction ops generalizing s with
  | nil => exact ⟨hnd, hlen⟩
  | cons op rest ih =>
      have hstep := apply_guarded_op_invariant s op hnd hlen
      have hparams := apply_guarded_op_params s op
      exact ih (apply_guarded_op s op) hstep.1 (by rw [hparams]; exact hstep.2)

/-- Witness for C1 (amended): from a fresh manager, one guarded entry and one
exit preserve the invariant. -/
theorem C1_amended_witness :
    ((apply_guarded_ops (initRiskManager defaultRiskParameters 10000)
      [RMOp.entry 10000 symBTC 100 1 98,
       RMOp.exitPos symBTC 104 4 1]).active_positions.map Prod.fst).Nodup ∧
    (apply_guarded_ops (initRiskManager defaultRiskParameters 10000)
      [RMOp.entry 10000 symBTC 100 1 98,
       RMOp.exitPos symBTC 104 4 1]).active_positions.length ≤
      (apply_guarded_ops (initRiskManager defaultRiskParameters 10000)
        [RMOp.entry 10000 symBTC 100 1 98,
         RMOp.exitPos symBTC 104 4 1]).risk_params.max_concurrent_trades :=
  C1_amended_capacity_invariant (initRiskManager defaultRiskParameters 10000)
    [RMOp.entry 10000 symBTC 100 1 98, RMOp.exitPos symBTC 104 4 1]
    (by simp [initRiskManager]) (by simp [initRiskManager, defaultRiskParameters])

/-- Looking a key up in a key-preserving map of a dictionary. -/
theorem dictLookup_map_fst {α β : Type} (f : String × α → String × β)
    (hf : ∀ sp, (f sp).1 = sp.1) (k : String) (l : List (String × α)) :
    dictLookup k (l.map f) = (dictLookup k l).map (fun v => (f (k, v)).2) := by
  induction l with
  | nil => rfl
  | cons hd t ih =>
      obtain ⟨k2, v2⟩ := hd
      rcases hfv : f (k2, v2) with ⟨k3, v3⟩
      have hk3 : k3 = k2 := by
        have := hf (k2, v2)
        rw [hfv] at this
        exact this
      subst hk3
      simp only [List.map_cons, hfv, dictLookup]
      split_ifs with h
      · subst h
        simp [hfv]
      · exact ih

/-- update_trailing_stops never changes the risk parameters. -/
theorem update_trailing_stops_params (st : RiskManagerState)
    (prices : List (String × ℚ)) :
    (update_trailing_stops st prices).risk_params = st.risk_params := by
  unfold update_trailing_stops
  split_ifs <;> rfl

/-- What update_trailing_stops does to each position, seen through lookup:
with trailing stops enabled, the stop of a position whose symbol is priced is
raised to price minus the trailing distance exactly when that is higher. -/
theorem update_trailing_stops_lookup (st : RiskManagerState)
    (prices : List (String × ℚ)) (sym : String)
    (he : st.risk_params.trailing_stop_enabled = true) :
    dictLookup sym (update_trailing_stops st prices).active_positions =
      (dictLookup sym st.active_positions).map (fun pos =>
        match dictLookup sym prices with
        | none => pos
        | some p =>
            if p - p * st.risk_params.trailing_stop_distance > pos.stop_loss then
              { pos with stop_loss := p - p * st.risk_params.trailing_stop_distance }
            else pos) := by
  simp only [update_trailing_stops, he, Bool.true_eq_false, if_false]
  rw [dictLookup_map_fst]
  · congr 1
    funext v
    cases hpp : dictLookup sym prices <;> simp only [hpp]
    split <;> rfl
  · intro sp
    cases hpp : dictLookup sp.1 prices
    · rfl
    · simp only [hpp]
      split <;> rfl

/-- One update call never lowers a position's stop. -/
theorem update_trailing_stops_stop_mono (st : RiskManagerState)
    (prices : List (String × ℚ)) (sym : String) (pos : TradeRisk)
    (h : dictLookup sym st.active_positions = some pos) :
    ∃ pos2, dictLookup sym (update_trailing_stops st prices).active_positions =
      some pos2 ∧ pos.stop_loss ≤ pos2.stop_loss := by
  by_cases he : st.risk_params.trailing_stop_enabled = true
  · rw [update_trailing_stops_lookup st prices sym he, h]
    cases hpp : dictLookup sym prices with
    | none => exact ⟨pos, by simp [hpp], le_refl _⟩
    | some p =>
        by_cases hgt : p - p * st.risk_params.trailing_stop_distance > pos.stop_loss
        · refine ⟨{ pos with stop_loss := p - p * st.risk_params.trailing_stop_distance },
            by simp [hpp, hgt], le_of_lt hgt⟩
        · exact ⟨pos, by simp [hpp, hgt], le_refl _⟩
  · have he2 : st.risk_params.trailing_stop_enabled = false := by simpa using he
    simp only [update_trailing_stops, he2, if_pos]
    exact ⟨pos, h, le_refl _⟩

/-- A sequence of update calls never lowers a position's stop. -/
theorem run_trailing_updates_stop_mono (st : RiskManagerState)
    (price_maps : List (List (String × ℚ))) (sym : String) (pos : TradeRisk)
    (h : dictLookup sym st.active_positions = some pos) :
    ∃ pos2, dictLookup sym (run_trailing_updates st price_maps).active_positions =
      some pos2 ∧ pos.stop_loss ≤ pos2.stop_loss := by
  induction price_maps generalizing st pos with
  | nil => exact ⟨pos, h, le_refl _⟩
  | cons m rest ih =>
      obtain ⟨pos1, h1, hle1⟩ := update_trailing_stops_stop_mono st m sym pos h
      obtain ⟨pos2, h2, hle2⟩ := ih (update_trailing_stops st m) pos1 h1
      exact ⟨pos2, h2, le_trans hle1 hle2⟩

/-- An update call whose proposed stop does not beat the current stop leaves
the position untouched. -/
theorem update_trailing_stops_no_change (st : RiskManagerState)
    (prices : List (String × ℚ)) (sym : String) (pos : TradeRisk)
    (h : dictLookup sym st.active_positions = some pos)
    (hle : ∀ p, dictLookup sym prices = some p →
      p - p * st.risk_params.trailing_stop_distance ≤ pos.stop_loss) :
    dictLookup sym (update_trailing_stops st prices).active_positions = some pos := by
  by_cases he : st.risk_params.trailing_stop_enabled = true
  · rw [update_trailing_stops_lookup st prices sym he, h]
    cases hpp : dictLookup sym prices with
    | none => simp [hpp]
    | some p =>
        simp only [hpp, Option.map_some']
        rw [if_neg (not_lt.mpr (hle p hpp))]
  · have he2 : st.risk_params.trailing_stop_enabled = false := by simpa using he
    simp only [update_trailing_stops, he2, if_pos]
    exact h

/-- A sequence of single-symbol update calls all of whose proposed stops stay
at or below the current stop leaves the position untouched. -/
theorem run_trailing_updates_all_le (st : RiskManagerState) (ps : List ℚ)
    (sym : String) (pos : TradeRisk)
    (h : dictLookup sym st.active_positions = some pos)
    (hall : ∀ p ∈ ps, p - p * st.risk_params.trailing_stop_distance ≤ pos.stop_loss) :
    dictLookup sym (run_trailing_updates st
      (ps.map (fun p => [(sym, p)]))).active_positions = some pos := by
  induction ps generalizing st with
  | nil => exact h
  | cons p rest ih =>
      have hq : ∀ q, dictLookup sym [(sym, p)] = some q →
          q - q * st.risk_params.trailing_stop_distance ≤ pos.stop_loss := by
        intro q hqq
        simp only [dictLookup, if_pos rfl] at hqq
        cases hqq
        exact hall p (List.mem_cons_self p rest)
      have h1 := update_trailing_stops_no_change st [(sym, p)] sym pos h hq
      have hall2 : ∀ q ∈ rest,
          q - q * (update_trailing_stops st [(sym, p)]).risk_params.trailing_stop_distance ≤
            pos.stop_loss := by
        intro q hqmem
        rw [update_trailing_stops_params]
        exact hall q (List.mem_cons_of_mem p hqmem)
      exact ih (update_trailing_stops st [(sym, p)]) h1 hall2

/-- In a non-increasing chain, every later element is at most the head. -/
theorem chain_ge_head_le {p0 : ℚ} {rest : List ℚ}
    (h : List.Chain' (fun a b => a ≥ b) (p0 :: rest)) : ∀ q ∈ rest, q ≤ p0 := by
  induction rest generalizing p0 with
  | nil => simp
  | cons q1 rest2 ih =>
      intro q hq
      have h1 : p0 ≥ q1 := (List.chain'_cons.mp h).1
      have h2 : List.Chain' (fun a b => a ≥ b) (q1 :: rest2) := (List.chain'_cons.mp h).2
      rcases List.mem_cons.mp hq with rfl | hmem
      · exact h1
      · exact le_trans (ih h2 q hmem) h1

/-- Counterexample to claim C4 as stated: with the default parameters
(trailing distance 1.5%) and an open position with stop 98, the falling price
sequence 99.9, 99.8 still changes the stop on its first call — 99.9 x 0.985 =
98.4015 > 98 — so a falling sequence does not leave the stop unchanged. -/
theorem C4_counterexample :
    (999/10 : ℚ) ≥ 998/10 ∧
    (dictLookup symBTC (update_trailing_stops (update_trailing_stops
        sampleStateWithPosition [(symBTC, 999/10)])
        [(symBTC, 998/10)]).active_positions).map TradeRisk.stop_loss =
      some (196803/2000) ∧
    samplePosition.stop_loss = 98 ∧
    (196803/2000 : ℚ) ≠ 98 := by
  refine ⟨by norm_num, ?_, rfl, by norm_num⟩
  norm_num [update_trailing_stops, sampleStateWithPosition, register_trade_entry,
    initRiskManager, samplePosition, defaultRiskParameters, dictInsert, dictLookup]

/-- Claim C4 (amended): update_trailing_stops proposes
newStop = price x (1 - trailing_stop_distance) for every open position with a
current price and applies it exactly when it is strictly higher than the
current stop; consequently the stop is non-decreasing across any sequence of
calls (in particular with rising prices); and a falling (non-increasing) price
sequence leaves the stop unchanged provided the first proposed stop does not
already exceed the current stop (on the first call the stop can still rise,
as the counterexample shows). -/
theorem C4_trailing_stop_amended :
    (∀ (st : RiskManagerState) (prices : List (String × ℚ)) (sym : String)
        (pos : TradeRisk) (p : ℚ),
      st.risk_params.trailing_stop_enabled = true →
      dictLookup sym st.active_positions = some pos →
      dictLookup sym prices = some p →
      dictLookup sym (update_trailing_stops st prices).active_positions =
        some (if p * (1 - st.risk_params.trailing_stop_distance) > pos.stop_loss then
          { pos with stop_loss := p * (1 - st.risk_params.trailing_stop_distance) }
          else pos)) ∧
    (∀ (st : RiskManagerState) (price_maps : List (List (String × ℚ)))
        (sym : String) (pos : TradeRisk),
      dictLookup sym st.active_positions = some pos →
      ∃ pos2, dictLookup sym (run_trailing_updates st price_maps).active_positions =
        some pos2 ∧ pos.stop_loss ≤ pos2.stop_loss) ∧
    (∀ (st : RiskManagerState) (ps : List ℚ) (sym : String) (pos : TradeRisk),
      st.risk_params.trailing_stop_distance ≤ 1 →
      dictLookup sym st.active_positions = some pos →
      List.Chain' (fun a b => a ≥ b) ps →
      (∀ p, ps.head? = some p →
        p * (1 - st.risk_params.trailing_stop_distance) ≤ pos.stop_loss) →
      dictLookup sym (run_trailing_updates st
        (ps.map (fun p => [(sym, p)]))).active_positions = some pos) := by
  refine ⟨?_, ?_, ?_⟩
  · intro st prices sym pos p he h hpp
    rw [update_trailing_stops_lookup st prices sym he, h]
    simp only [hpp, Option.map_some']
    rw [show p * (1 - st.risk_params.trailing_stop_distance) =
      p - p * st.risk_params.trailing_stop_distance from by ring]
  · intro st price_maps sym pos h
    exact run_trailing_updates_stop_mono st price_maps sym pos h
  · intro st ps sym pos hd h hchain hfirst
    cases ps with
    | nil => exact h
    | cons p0 rest =>
        have hall : ∀ q ∈ p0 :: rest,
            q - q * st.risk_params.trailing_stop_distance ≤ pos.stop_loss := by
          intro q hq
          have h1md : (0:ℚ) ≤ 1 - st.risk_params.trailing_stop_distance := by linarith
          have hle0 : q ≤ p0 := by
            rcases List.mem_cons.mp hq with rfl | hmem
            · exact le_refl q
            · exact chain_ge_head_le hchain q hmem
          calc q - q * st.risk_params.trailing_stop_distance
              = q * (1 - st.risk_params.trailing_stop_distance) := by ring
            _ ≤ p0 * (1 - st.risk_params.trailing_stop_distance) :=
                mul_le_mul_of_nonneg_right hle0 h1md
            _ ≤ pos.stop_loss := hfirst p0 rfl
        exact run_trailing_updates_all_le st (p0 :: rest) sym pos h hall

/-- Witness for C4 (amended): one update call on the sample position never
lowers its stop. -/
theorem C4_amended_witness :
    ∃ pos2, dictLookup symBTC (run_trailing_updates sampleStateWithPosition
      [[(symBTC, 99)]]).active_positions = some pos2 ∧
      samplePosition.stop_loss ≤ pos2.stop_loss :=
  C4_trailing_stop_amended.2.1 sampleStateWithPosition [[(symBTC, 99)]] symBTC
    samplePosition rfl

/-- Counterexample to claim C5 as stated: the feed wired by MultiPairTrader
(UltraSimpleWebSocket) has no Degraded polling mode. After one successful
streaming connection (which fires the registered callback once), a drop
followed by three consecutive failed reconnection attempts exits the loop
permanently, and the subsequent price tick fires no callback: the total
callback count over the whole trace stays 1, so the feed does stop
delivering callbacks because the stream is down. -/
theorem C5_counterexample :
    (ws_run c5callbacks initWsState c5trace).1.halted = true ∧
    (ws_run c5callbacks initWsState [WsEvent.connect_ok [(symBTC, 100)]]).2 = 1 ∧
    (ws_run c5callbacks initWsState c5trace).2 = 1 := by
  refine ⟨rfl, rfl, rfl⟩

/-- Claim C5 (amended): after the streaming connection drops, the loop
re-attempts the connection (retry_count reset to 0 by the last successful
connect); after exactly 3 consecutive failed attempts — separated by a fixed
10-second delay, not exponential backoff — the loop exits permanently, and
from that halted state no event ever fires a callback again; there is no
Degraded polling mode. -/
theorem C5_ws_amended :
    (∀ (callbacks : List (String × Nat)) (st : WsState),
      st.running = true → st.halted = false → st.retry_count = 0 →
      (ws_run callbacks st [WsEvent.connect_fail, WsEvent.connect_fail,
        WsEvent.connect_fail]).1.halted = true ∧
      (ws_run callbacks st [WsEvent.connect_fail, WsEvent.connect_fail]).1.halted =
        false) ∧
    (∀ (callbacks : List (String × Nat)) (st : WsState) (ev : WsEvent),
      st.halted = true → ws_step callbacks st ev = (st, 0)) ∧
    (∀ n, ws_retry_delay_seconds n = 10) := by
  refine ⟨?_, ?_, fun n => rfl⟩
  · intro callbacks st h1 h2 h3
    constructor <;> simp [ws_run, ws_step, h1, h2, h3, ws_max_retries]
  · intro callbacks st ev h
    simp [ws_step, h]

/-- Witness for C5 (amended): from the initial feed state, three consecutive
failed attempts halt the loop, while two do not. -/
theorem C5_amended_witness :
    (ws_run c5callbacks initWsState [WsEvent.connect_fail, WsEvent.connect_fail,
      WsEvent.connect_fail]).1.halted = true ∧
    (ws_run c5callbacks initWsState [WsEvent.connect_fail,
      WsEvent.connect_fail]).1.halted = false :=
  C5_ws_amended.1 c5callbacks initWsState rfl rfl rfl
